import Mathlib

/-!
Shallow embedding of the order-execution engine.

Sources embedded:
* `src/services/mockDexRouter.ts`  — `MockDexRouter.getBestQuote`, `MockDexRouter.executeSwap`
* `src/services/orderQueue.ts`     — `OrderQueue.processOrder`, `registerWebSocket`,
  `unregisterWebSocket` (the worker pipeline, lines 39–110)
* `src/repositories/orderRepository.ts` — `createOrder`, `updateOrderStatus`
* the WebSocket intake handler (`wsHandler` message handler) — the initial
  `pending` notification and the inserted row

Modelling conventions:
* JavaScript numbers are embedded as `ℚ`; `Math.random()` is an injected
  stream `r : ℕ → ℚ` of draws (each in `[0,1)` where a claim needs it), the
  i-th call to `Math.random()` inside one function body reading `r i`.
* The notification sink is the `ws` WebSocket object.  Per the `ws` library
  (the repository passes no send callback), `send` never throws
  synchronously: on a non-open socket the frame is silently discarded.  A
  `Sink` therefore carries an open/closed schedule and a send attempt is
  recorded together with whether it was delivered.  `close()` without
  arguments and `Map.delete` never throw.
* The calls covered by the `try` of `processOrder` that can throw are the
  quote call, the swap call and the persistence update (their contracts
  allow e.g. `DatabaseError`); their outcomes for one run are an explicit
  environment `StepEnv`.  Errors are represented by their message string
  (the catch block reads `error.message`).
* Database effects are modelled as the list of committed writes; a throwing
  `UPDATE` (single statement, atomic) commits nothing.  Timestamp columns
  are not modelled.
-/

namespace OrderEngine

/-- An order as carried by the job queue (`Order` in `src/types`): the fields
the pipeline reads. -/
structure Order where
  id : String
  tokenIn : String
  tokenOut : String
  amountIn : ℚ
  deriving Repr, DecidableEq

/-- `DexQuote` from `src/services/mockDexRouter.ts`. -/
structure DexQuote where
  dex : String
  price : ℚ
  fee : ℚ
  estimatedOutput : ℚ
  deriving Repr, DecidableEq

/-- `SwapResult` from `src/services/mockDexRouter.ts`. -/
structure SwapResult where
  txHash : String
  executedPrice : ℚ
  amountOut : ℚ
  dex : String
  deriving Repr, DecidableEq

/-- One hex digit as produced by `Math.floor(Math.random()*16).toString(16)`. -/
def hexChar (n : ℕ) : Char :=
  if n < 10 then Char.ofNat (48 + n) else Char.ofNat (87 + n)

/-- `MockDexRouter.getBestQuote` (lines 16–25): one price
`0.05 * (0.98 + Math.random() * 0.04)` (draw 0), then the venue is chosen by
`Math.random() > 0.5 ? 'raydium' : 'meteora'` (draw 1); fee is fixed at
`0.003` and `estimatedOutput = amount * price * 0.997`.  The token arguments
are unused by the body, as in the source. -/
def getBestQuote (r : ℕ → ℚ) (tokenIn tokenOut : String) (amount : ℚ) : DexQuote :=
  let price : ℚ := 5/100 * (98/100 + r 0 * (4/100))
  { dex := if r 1 > 1/2 then "raydium" else "meteora"
    price := price
    fee := 3/1000
    estimatedOutput := amount * price * (997/1000) }

/-- `MockDexRouter.executeSwap` (lines 27–36): synthesizes a transaction hash
`'5'` followed by 87 random hex digits and copies `price`,
`estimatedOutput` and `dex` from the supplied quote.  The body performs no
repository or sink call, so its embedding is a pure function. -/
def executeSwap (r : ℕ → ℚ) (quote : DexQuote) (tokenIn tokenOut : String)
    (amount : ℚ) : SwapResult :=
  { txHash := String.mk ('5' :: (List.range 87).map fun i => hexChar (Int.toNat ⌊r i * 16⌋))
    executedPrice := quote.price
    amountOut := quote.estimatedOutput
    dex := quote.dex }

/-- The candidate venue set named by the source and the spec. -/
def candidateVenues : List String := ["raydium", "meteora"]

/-- Modelled from the spec (§4.1): "computing a per-venue unit price perturbed
by bounded randomness around a reference rate" — each venue draws its own
perturbation of the `0.05` reference rate: raydium reads draw 0, meteora
draw 1.  This definition follows the spec's words, for comparison with
`getBestQuote`, which computes a single price. -/
def specVenuePrice (r : ℕ → ℚ) (venue : String) : ℚ :=
  5/100 * (98/100 + (if venue = "raydium" then r 0 else r 1) * (4/100))

/-- Modelled from the spec (§4.1): a venue's "estimated output, net of fee"
for a given input amount, with the fixed `0.997` net-of-fee factor. -/
def specNetOutput (r : ℕ → ℚ) (amount : ℚ) (venue : String) : ℚ :=
  amount * specVenuePrice r venue * (997/1000)

/-- A notification sink (the `ws` object): an identity, whether it is open
when the intake `pending` message is sent, and whether it is open at the
k-th send attempt of the worker run. -/
structure Sink where
  id : ℕ
  openAtIntake : Bool
  openAt : ℕ → Bool

/-- One `ws.send` attempt: the notification's `orderId`, `status` and
`message` fields, and whether the frame was delivered (the sink was open) or
silently discarded (the sink was closed). -/
structure SendRec where
  orderId : String
  status : String
  message : String
  delivered : Bool
  deriving Repr, DecidableEq

/-- The result-field payload of the terminal `updateOrderStatus` call. -/
structure UpdateData where
  selectedDex : String
  amountOut : ℚ
  executedPrice : ℚ
  txHash : String
  deriving Repr, DecidableEq

/-- One committed `updateOrderStatus` write: target order id, new status, and
the optional result fields. -/
structure DbWrite where
  orderId : String
  status : String
  data : Option UpdateData
  deriving Repr, DecidableEq

/-- Outcomes, for one run, of the three calls inside `processOrder`'s `try`
that can throw: the quote call, the swap call and the persistence update.
(The mock router never throws — `mockEnv` below — but the catch scope covers
these calls, and the repository can raise a database error.) -/
structure StepEnv where
  quote : Except String DexQuote
  swap : Except String SwapResult
  persist : Except String Unit

/-- The observable trace of one `processOrder` run: the send attempts in
order, the committed writes, whether `ws.close()` ran, whether
`unregisterWebSocket` ran, and the exception escaping to the BullMQ worker,
if any. -/
structure RunResult where
  sends : List SendRec
  writes : List DbWrite
  didClose : Bool
  didUnbind : Bool
  raised : Option String

/-- The send attempts `if (ws) ws.send(...)` produce: none when no sink is
bound; otherwise one record per attempt, delivered when the sink is open at
that attempt. -/
def attempts (ws : Option Sink) (oid : String) (l : List (ℕ × String × String)) :
    List SendRec :=
  match ws with
  | none => []
  | some s => l.map fun a => ⟨oid, a.2.1, a.2.2, s.openAt a.1⟩

/-- The first error raised inside the `try` of `processOrder`, if any:
the quote call, then the swap call, then the persistence update. -/
def pipelineError (env : StepEnv) : Option String :=
  match env.quote with
  | .error e => some e
  | .ok _ =>
    match env.swap with
    | .error e => some e
    | .ok _ =>
      match env.persist with
      | .error e => some e
      | .ok _ => none

/-- `OrderQueue.processOrder` (lines 39–110), given the sink resolved at the
start of the run.  Try body in order: `routing` notify, quote, `routing`
(selected) notify, settle wait (`setTimeout`, cannot throw), `building`
notify, swap, terminal `confirmed` persistence write, `confirmed` notify,
`ws.close()`, `unregisterWebSocket`.  Catch: one `failed` notify carrying
the error's message; no write, no close, no unbind; the error is swallowed.
Each branch spells the resulting trace; sink sends and `close()` cannot
throw (see the module docstring), so every branch returns normally. -/
def processOrder (ws : Option Sink) (o : Order) (env : StepEnv) : RunResult :=
  match env.quote with
  | .error e =>
    { sends := attempts ws o.id [(0, "routing", "Comparing DEX prices"), (1, "failed", e)]
      writes := []
      didClose := false
      didUnbind := false
      raised := none }
  | .ok q =>
    match env.swap with
    | .error e =>
      { sends := attempts ws o.id
          [(0, "routing", "Comparing DEX prices"),
           (1, "routing", "Selected " ++ q.dex),
           (2, "building", "Creating transaction"),
           (3, "failed", e)]
        writes := []
        didClose := false
        didUnbind := false
        raised := none }
    | .ok res =>
      match env.persist with
      | .error e =>
        { sends := attempts ws o.id
            [(0, "routing", "Comparing DEX prices"),
             (1, "routing", "Selected " ++ q.dex),
             (2, "building", "Creating transaction"),
             (3, "failed", e)]
          writes := []
          didClose := false
          didUnbind := false
          raised := none }
      | .ok _ =>
        { sends := attempts ws o.id
            [(0, "routing", "Comparing DEX prices"),
             (1, "routing", "Selected " ++ q.dex),
             (2, "building", "Creating transaction"),
             (3, "confirmed", "Transaction successful")]
          writes := [⟨o.id, "confirmed",
                      some ⟨res.dex, res.amountOut, res.executedPrice, res.txHash⟩⟩]
          didClose := ws.isSome
          didUnbind := true
          raised := none }

/-- `OrderQueue.unregisterWebSocket`: `Map.delete` on the subscriber map,
embedded on an association list. -/
def unregisterWebSocket (m : List (String × Sink)) (orderId : String) :
    List (String × Sink) :=
  m.filter fun p => p.1 ≠ orderId

/-- The subscriber map after a run, given its contents `m` when the run's
registry effects apply: the success path deletes the order's binding, every
other path leaves the map untouched. -/
def registryAfter (m : List (String × Sink)) (o : Order) (run : RunResult) :
    List (String × Sink) :=
  if run.didUnbind then unregisterWebSocket m o.id else m

/-- Whether the subscriber map holds a binding for an order id. -/
def holdsBinding (m : List (String × Sink)) (orderId : String) : Bool :=
  m.any fun p => p.1 = orderId

/-- `processOrder` as the worker invokes it: `const ws = this.webSockets.get(order.id)`
— the sink is looked up in the registry exactly once, at the start of the
run.  `reg n` is the registry contents at time `n` of the run; time 0 is the
moment the run starts. -/
def processOrderFrom (reg : ℕ → List (String × Sink)) (o : Order) (env : StepEnv) :
    RunResult :=
  processOrder ((reg 0).lookup o.id) o env

/-- A persisted order row (`orders` table, timestamp columns unmodelled). -/
structure OrderRow where
  id : String
  tokenIn : String
  tokenOut : String
  amountIn : ℚ
  amountOut : Option ℚ
  orderType : String
  status : String
  selectedDex : Option String
  executionPrice : Option ℚ
  txHash : Option String
  retryCount : ℕ
  errorMessage : Option String
  deriving Repr, DecidableEq

/-- `OrderRepository.createOrder`: INSERT of id, token_in, token_out,
amount_in, order_type, status and retry_count; the columns not in the insert
list are NULL. -/
def createOrderRow (o : Order) (orderType status : String) (retryCount : ℕ) : OrderRow :=
  { id := o.id
    tokenIn := o.tokenIn
    tokenOut := o.tokenOut
    amountIn := o.amountIn
    amountOut := none
    orderType := orderType
    status := status
    selectedDex := none
    executionPrice := none
    txHash := none
    retryCount := retryCount
    errorMessage := none }

/-- The row the intake handler inserts before enqueuing: status `pending`,
retry count 0 (`wsHandler` message handler). -/
def intakeRow (o : Order) (orderType : String) : OrderRow :=
  createOrderRow o orderType "pending" 0

/-- `OrderRepository.updateOrderStatus`: UPDATE SET status, selected_dex,
amount_out, execution_price, tx_hash WHERE id matches; retry_count and
error_message are not in the column list and are left unchanged; with no
data payload the result columns are set to NULL. -/
def updateOrderStatusRow (w : DbWrite) (row : OrderRow) : OrderRow :=
  if w.orderId = row.id then
    { row with
        status := w.status
        selectedDex := w.data.map UpdateData.selectedDex
        amountOut := w.data.map UpdateData.amountOut
        executionPrice := w.data.map UpdateData.executedPrice
        txHash := w.data.map UpdateData.txHash }
  else row

/-- Replay a list of committed writes onto a row. -/
def applyWrites (row : OrderRow) (l : List DbWrite) : OrderRow :=
  l.foldl (fun r w => updateOrderStatusRow w r) row

/-- The send attempts over an order's sink across its lifecycle: the intake
handler sends the `pending` message (before binding the sink and enqueuing),
then the worker run makes the remaining attempts. -/
def lifecycleSends (s : Sink) (o : Order) (env : StepEnv) : List SendRec :=
  ⟨o.id, "pending", "Order received and queued for execution", s.openAtIntake⟩ ::
    (processOrder (some s) o env).sends

/-- The statuses actually delivered to the sink, in order. -/
def deliveredStatuses (l : List SendRec) : List String :=
  (l.filter fun sr => sr.delivered).map SendRec.status

/-- The status sequence of a fully successful order. -/
def fullStatusSeq : List String :=
  ["pending", "routing", "routing", "building", "confirmed"]

/- Concrete fixtures used by witnesses and counterexamples. -/

/-- A constant random stream. -/
def rx : ℕ → ℚ := fun _ => 1/2

/-- A sink that stays open. -/
def sinkUp : Sink := ⟨0, true, fun _ => true⟩

/-- A sink that is closed for every worker-run send attempt. -/
def sinkDown : Sink := ⟨1, true, fun _ => false⟩

/-- A concrete order. -/
def o1 : Order := ⟨"o1", "SOL", "USDC", 10⟩

/-- A concrete quote produced by the mock router. -/
def qx : DexQuote := getBestQuote rx "SOL" "USDC" 10

/-- A concrete swap result produced by the mock router. -/
def resx : SwapResult := executeSwap rx qx "SOL" "USDC" 10

/-- An environment where every call succeeds (the mock router cannot throw). -/
def envOk : StepEnv := ⟨.ok qx, .ok resx, .ok ()⟩

/-- An environment where the terminal persistence update throws. -/
def envDbFail : StepEnv := ⟨.ok qx, .ok resx, .error "db down"⟩

/-- An environment where the quote call throws. -/
def envQuoteFail : StepEnv := ⟨.error "venue unavailable", .ok resx, .ok ()⟩

/-- A random stream whose price draw is at the bottom of the range and whose
venue draw selects raydium. -/
def rC2 : ℕ → ℚ := fun n => if n = 0 then 0 else 9/10

/-- A registry that keeps the binding for `o1` at every time. -/
def regA : ℕ → List (String × Sink) := fun _ => [("o1", sinkUp)]

/-- A registry that holds the binding for `o1` when the run starts (time 0)
and is emptied — an unbind — at every later time. -/
def regB : ℕ → List (String × Sink) := fun n => if n = 0 then [("o1", sinkUp)] else []

/-- `holdsBinding` is false for the deleted key after `unregisterWebSocket`. -/
theorem holdsBinding_unregister (m : List (String × Sink)) (i : String) :
    holdsBinding (unregisterWebSocket m i) i = false := by
  simp only [holdsBinding, unregisterWebSocket, Bool.eq_false_iff]
  intro h
  rw [List.any_eq_true] at h
  obtain ⟨p, hp, hpi⟩ := h
  rw [List.mem_filter] at hp
  have h1 : p.1 = i := by simpa using hpi
  have h2 : p.1 ≠ i := by simpa using hp.2
  exact h2 h1

/-- C2: the venue named by `getBestQuote` is not the venue with the highest
estimated output net of fee among the candidates: with the price draw at the
bottom of the range and the venue draw above 0.5, the code returns raydium
although meteora's spec-modelled net output for the same draws is strictly
higher.  (The code computes a single price and picks the venue by a coin
flip; the README and spec promise comparison of per-venue quotes.) -/
theorem claim2_not_best_venue :
    (getBestQuote rC2 "SOL" "USDC" 1).dex = "raydium" ∧
    "meteora" ∈ candidateVenues ∧
    specNetOutput rC2 1 "meteora" >
      specNetOutput rC2 1 (getBestQuote rC2 "SOL" "USDC" 1).dex := by
  have hdex : (getBestQuote rC2 "SOL" "USDC" 1).dex = "raydium" := by
    norm_num [getBestQuote, rC2]
  refine ⟨hdex, by decide, ?_⟩
  rw [hdex]
  have hm : ("meteora" : String) ≠ "raydium" := by decide
  norm_num [specNetOutput, specVenuePrice, rC2, hm]

/-- C3: `executeSwap` copies the executed price, the output amount and the
venue from the supplied quote; its embedding is a pure function because the
source body invokes no repository or sink operation. -/
theorem claim3_execute_swap_fields (r : ℕ → ℚ) (q : DexQuote) (tIn tOut : String)
    (a : ℚ) :
    (executeSwap r q tIn tOut a).executedPrice = q.price ∧
    (executeSwap r q tIn tOut a).amountOut = q.estimatedOutput ∧
    (executeSwap r q tIn tOut a).dex = q.dex :=
  ⟨rfl, rfl, rfl⟩

/-- C8: every quote has fee 0.003, estimated output `amount * price * 0.997`,
and a price in `[0.049, 0.051)` when the price draw lies in `[0, 1)`. -/
theorem claim8_quote_numerics (r : ℕ → ℚ) (tIn tOut : String) (a : ℚ)
    (h0 : 0 ≤ r 0) (h1 : r 0 < 1) :
    (getBestQuote r tIn tOut a).fee = 3/1000 ∧
    (getBestQuote r tIn tOut a).estimatedOutput =
      a * (getBestQuote r tIn tOut a).price * (997/1000) ∧
    49/1000 ≤ (getBestQuote r tIn tOut a).price ∧
    (getBestQuote r tIn tOut a).price < 51/1000 := by
  have hp : (getBestQuote r tIn tOut a).price = 5/100 * (98/100 + r 0 * (4/100)) := rfl
  refine ⟨rfl, rfl, ?_, ?_⟩ <;> rw [hp] <;> nlinarith [h0, h1]

/-- Witness for C8 at the constant draw 1/2 and amount 10. -/
theorem claim8_quote_numerics_witness :
    ((0 : ℚ) ≤ rx 0 ∧ rx 0 < 1) ∧
    ((getBestQuote rx "SOL" "USDC" 10).fee = 3/1000 ∧
     (getBestQuote rx "SOL" "USDC" 10).estimatedOutput =
       10 * (getBestQuote rx "SOL" "USDC" 10).price * (997/1000) ∧
     49/1000 ≤ (getBestQuote rx "SOL" "USDC" 10).price ∧
     (getBestQuote rx "SOL" "USDC" 10).price < 51/1000) :=
  ⟨⟨by norm_num [rx], by norm_num [rx]⟩,
   claim8_quote_numerics rx "SOL" "USDC" 10 (by norm_num [rx]) (by norm_num [rx])⟩

/-- C9: the worker resolves the sink exactly once, at the start of the run:
two registry histories that agree on the order's binding at time 0 produce
identical runs, whatever rebinds or unbinds happen from time 1 on. -/
theorem claim9_sink_resolved_once (reg₁ reg₂ : ℕ → List (String × Sink)) (o : Order)
    (env : StepEnv) (h : (reg₁ 0).lookup o.id = (reg₂ 0).lookup o.id) :
    processOrderFrom reg₁ o env = processOrderFrom reg₂ o env := by
  unfold processOrderFrom
  rw [h]

/-- Witness for C9: a registry that keeps the binding and one that unbinds
the order at every time after the run starts give the same run. -/
theorem claim9_sink_resolved_once_witness :
    ((regA 0).lookup o1.id = (regB 0).lookup o1.id) ∧
    processOrderFrom regA o1 envOk = processOrderFrom regB o1 envOk :=
  ⟨rfl, claim9_sink_resolved_once regA regB o1 envOk rfl⟩

/-- C1: with a sink bound at intake, never unbound and open for every send,
the delivered status sequence is exactly
`pending, routing, routing, building, confirmed`, or a proper prefix of it
followed by a single `failed`. -/
theorem claim1_status_sequence (s : Sink) (o : Order) (env : StepEnv)
    (hIntake : s.openAtIntake = true) (hOpen : ∀ k, s.openAt k = true) :
    deliveredStatuses (lifecycleSends s o env) = fullStatusSeq ∨
    ∃ p t, p ++ t = fullStatusSeq ∧ t ≠ [] ∧
      deliveredStatuses (lifecycleSends s o env) = p ++ ["failed"] := by
  obtain ⟨q, sw, pr⟩ := env
  rcases q with e1 | q
  · exact Or.inr ⟨["pending", "routing"], ["routing", "building", "confirmed"], rfl,
      by simp,
      by simp [deliveredStatuses, lifecycleSends, processOrder, attempts, hIntake, hOpen]⟩
  rcases sw with e2 | res
  · exact Or.inr ⟨["pending", "routing", "routing", "building"], ["confirmed"], rfl,
      by simp,
      by simp [deliveredStatuses, lifecycleSends, processOrder, attempts, hIntake, hOpen]⟩
  rcases pr with e3 | u
  · exact Or.inr ⟨["pending", "routing", "routing", "building"], ["confirmed"], rfl,
      by simp,
      by simp [deliveredStatuses, lifecycleSends, processOrder, attempts, hIntake, hOpen]⟩
  · exact Or.inl (by
      simp [deliveredStatuses, lifecycleSends, processOrder, attempts, hIntake, hOpen,
        fullStatusSeq])

/-- Witness for C1: an always-open sink and a run whose persistence update
throws observes a proper prefix followed by `failed`. -/
theorem claim1_status_sequence_witness :
    (sinkUp.openAtIntake = true ∧ ∀ k, sinkUp.openAt k = true) ∧
    (deliveredStatuses (lifecycleSends sinkUp o1 envDbFail) = fullStatusSeq ∨
      ∃ p t, p ++ t = fullStatusSeq ∧ t ≠ [] ∧
        deliveredStatuses (lifecycleSends sinkUp o1 envDbFail) = p ++ ["failed"]) :=
  ⟨⟨rfl, fun _ => rfl⟩, claim1_status_sequence sinkUp o1 envDbFail rfl fun _ => rfl⟩

/-- C4: when a call inside the pipeline throws, `processOrder` swallows the
error, raises nothing to the job queue, and the run's `failed` sends are
exactly one attempt carrying the error's message to the sink bound at the
start of the run — none when no sink was bound. -/
theorem claim4_failure_caught (ws : Option Sink) (o : Order) (env : StepEnv) (e : String)
    (he : pipelineError env = some e) :
    (processOrder ws o env).raised = none ∧
    ((processOrder ws o env).sends.filter fun sr => sr.status = "failed").map
        (fun sr => (sr.orderId, sr.status, sr.message)) =
      (if ws.isSome then [(o.id, "failed", e)] else []) := by
  obtain ⟨q, sw, pr⟩ := env
  rcases ws with _ | s <;> rcases q with e1 | q <;> rcases sw with e2 | res <;>
    rcases pr with e3 | u <;>
      simp_all [pipelineError, processOrder, attempts]

/-- Witness for C4: a bound, open sink and a throwing persistence update. -/
theorem claim4_failure_caught_witness :
    pipelineError envDbFail = some "db down" ∧
    ((processOrder (some sinkUp) o1 envDbFail).raised = none ∧
     ((processOrder (some sinkUp) o1 envDbFail).sends.filter
         fun sr => sr.status = "failed").map
         (fun sr => (sr.orderId, sr.status, sr.message)) =
       (if (some sinkUp).isSome then [(o1.id, "failed", "db down")] else [])) :=
  ⟨rfl, claim4_failure_caught (some sinkUp) o1 envDbFail "db down" rfl⟩

/-- C5: a run that attempts a `failed` notification commits no persistence
write and performs no unbind, so the persisted row is unchanged by it.  (No
failure can arise after the terminal write commits: the remaining operations
— the `confirmed` send, `close()`, `Map.delete` — cannot throw.) -/
theorem claim5_failed_run_frame (ws : Option Sink) (o : Order) (env : StepEnv)
    (hf : "failed" ∈ (processOrder ws o env).sends.map SendRec.status) :
    (processOrder ws o env).writes = [] ∧
    (processOrder ws o env).didUnbind = false ∧
    ∀ row, applyWrites row (processOrder ws o env).writes = row := by
  obtain ⟨q, sw, pr⟩ := env
  rcases ws with _ | s <;> rcases q with e1 | q <;> rcases sw with e2 | res <;>
    rcases pr with e3 | u <;>
      simp_all [processOrder, attempts, applyWrites]

/-- Witness for C5: a run whose quote call throws. -/
theorem claim5_failed_run_frame_witness :
    "failed" ∈ (processOrder (some sinkUp) o1 envQuoteFail).sends.map SendRec.status ∧
    ((processOrder (some sinkUp) o1 envQuoteFail).writes = [] ∧
     (processOrder (some sinkUp) o1 envQuoteFail).didUnbind = false ∧
     ∀ row, applyWrites row (processOrder (some sinkUp) o1 envQuoteFail).writes = row) :=
  ⟨by decide, claim5_failed_run_frame (some sinkUp) o1 envQuoteFail (by decide)⟩

/-- C6 counterexample: a run whose persistence update throws delivers the
terminal `failed` notification to its open sink, yet the subscriber map still
holds the binding for the order id afterwards — the catch path never calls
`unregisterWebSocket`. -/
theorem claim6_cex :
    "failed" ∈ deliveredStatuses (processOrder (some sinkUp) o1 envDbFail).sends ∧
    holdsBinding
      (registryAfter [("o1", sinkUp)] o1 (processOrder (some sinkUp) o1 envDbFail))
      "o1" = true := by
  constructor
  · decide
  · decide

/-- C6 amended: after a run the subscriber map holds no binding for the order
id when the run succeeded (the confirmed path unbinds); when the run failed
the map is exactly as before — the binding survives the terminal `failed`
notification. -/
theorem claim6_amended (m : List (String × Sink)) (ws : Option Sink) (o : Order)
    (env : StepEnv) :
    holdsBinding (registryAfter m o (processOrder ws o env)) o.id =
      if (pipelineError env).isSome then holdsBinding m o.id else false := by
  obtain ⟨q, sw, pr⟩ := env
  rcases q with e1 | q <;> rcases sw with e2 | res <;> rcases pr with e3 | u <;>
    simp [pipelineError, processOrder, registryAfter, holdsBinding_unregister]

/-- C7: when the sink disconnects at or before the `building` step (so the
`confirmed` frame is not delivered) and the persistence update succeeds, the
run still commits the terminal `confirmed` write and raises nothing. -/
theorem claim7_sink_disconnect (s : Sink) (o : Order) (q : DexQuote) (res : SwapResult)
    (k : ℕ) (hk : k ≤ 3) (hclosed : ∀ j, k ≤ j → s.openAt j = false) :
    (processOrder (some s) o ⟨.ok q, .ok res, .ok ()⟩).writes =
      [⟨o.id, "confirmed", some ⟨res.dex, res.amountOut, res.executedPrice, res.txHash⟩⟩] ∧
    (processOrder (some s) o ⟨.ok q, .ok res, .ok ()⟩).raised = none ∧
    ∀ sr ∈ (processOrder (some s) o ⟨.ok q, .ok res, .ok ()⟩).sends,
      sr.status = "confirmed" → sr.delivered = false := by
  have h3 : s.openAt 3 = false := hclosed 3 hk
  refine ⟨rfl, rfl, ?_⟩
  intro sr hsr hst
  simp [processOrder, attempts] at hsr
  rcases hsr with h | h | h | h <;> subst h <;> simp_all

/-- Witness for C7: a sink closed for the whole worker run. -/
theorem claim7_sink_disconnect_witness :
    (0 ≤ 3 ∧ ∀ j, 0 ≤ j → sinkDown.openAt j = false) ∧
    ((processOrder (some sinkDown) o1 ⟨.ok qx, .ok resx, .ok ()⟩).writes =
      [⟨o1.id, "confirmed", some ⟨resx.dex, resx.amountOut, resx.executedPrice, resx.txHash⟩⟩] ∧
     (processOrder (some sinkDown) o1 ⟨.ok qx, .ok resx, .ok ()⟩).raised = none ∧
     ∀ sr ∈ (processOrder (some sinkDown) o1 ⟨.ok qx, .ok resx, .ok ()⟩).sends,
       sr.status = "confirmed" → sr.delivered = false) :=
  ⟨⟨by decide, fun _ _ => rfl⟩,
   claim7_sink_disconnect sinkDown o1 qx resx 0 (by decide) fun _ _ => rfl⟩

/-- C10: the worker commits at most one write per run — either nothing, or
the single terminal `confirmed` update carrying the swap result's fields;
replaying a run's writes never changes `error_message` or `retry_count`; and
a run that failed leaves the row inserted at intake untouched: status
`pending` and all result fields NULL. -/
theorem claim10_single_terminal_write (ws : Option Sink) (o : Order) (env : StepEnv)
    (ot : String) :
    ((processOrder ws o env).writes = [] ∨
      ∃ res, env.swap = .ok res ∧
        (processOrder ws o env).writes =
          [⟨o.id, "confirmed", some ⟨res.dex, res.amountOut, res.executedPrice, res.txHash⟩⟩]) ∧
    (∀ row, (applyWrites row (processOrder ws o env).writes).errorMessage = row.errorMessage ∧
      (applyWrites row (processOrder ws o env).writes).retryCount = row.retryCount) ∧
    ((pipelineError env).isSome = true →
      applyWrites (intakeRow o ot) (processOrder ws o env).writes = intakeRow o ot ∧
      (intakeRow o ot).status = "pending" ∧
      (intakeRow o ot).amountOut = none ∧
      (intakeRow o ot).selectedDex = none ∧
      (intakeRow o ot).executionPrice = none ∧
      (intakeRow o ot).txHash = none ∧
      (intakeRow o ot).errorMessage = none) := by
  obtain ⟨q, sw, pr⟩ := env
  rcases q with e1 | q <;> rcases sw with e2 | res <;> rcases pr with e3 | u <;>
    refine ⟨?_, ?_, ?_⟩ <;>
      simp [pipelineError, processOrder, attempts, applyWrites, updateOrderStatusRow,
        intakeRow, createOrderRow]
  · intro row
    constructor <;> split <;> rfl

/-- Witness for C10: a run whose persistence update throws leaves the intake
row untouched. -/
theorem claim10_single_terminal_write_witness :
    (pipelineError envDbFail).isSome = true ∧
    applyWrites (intakeRow o1 "market") (processOrder (some sinkUp) o1 envDbFail).writes =
      intakeRow o1 "market" :=
  ⟨rfl,
   ((claim10_single_terminal_write (some sinkUp) o1 envDbFail "market").2.2 rfl).1⟩

end OrderEngine
